import Mathlib

/-!
Verification development for a household perishable-inventory tracker
(Django app `inventory`): data model (StorageLocation, Category, Item,
InventoryEntry, UsageLog), the usage-depletes-quantity transaction,
expiration-band classification, low-stock detection and the
protect/cascade deletion policy.

Dates are embedded as integer day ordinals (`Int`); comparison of dates
and `(a - b).days` become integer comparison and subtraction.  The
relational store is embedded as association lists keyed by integer ids,
with a single fresh-id counter.  Each exposed write operation (a Django
view guarded by its form's validation) becomes a function
`Store → ... → Except FormError Store`; the form either is valid and the
view saves, or the operation fails and returns no new store.
-/

namespace Inventory

/-- `inventory.models.StorageLocation`: name (unique) and optional text. -/
structure StorageLocation where
  name : String
  description : Option String
  deriving Repr, DecidableEq

/-- `inventory.models.Category`: name (unique) and optional text. -/
structure Category where
  name : String
  description : Option String
  deriving Repr, DecidableEq

/-- `inventory.models.Item`: a type of food product.  `category` and
`default_storage_location` hold ids of rows of the respective tables
(both FKs are `on_delete=PROTECT`).  Auto timestamps are omitted. -/
structure Item where
  name : String
  category : Nat
  default_storage_location : Nat
  preferred_store : Option String
  typical_quantity_unit : String
  low_stock_threshold : Option Int
  deriving Repr, DecidableEq

/-- `inventory.models.InventoryEntry`: a concrete batch of stock.
`item` is a CASCADE FK to the items table, `storage_location` a PROTECT
FK to the locations table; dates are day ordinals.  `date_added` is
omitted (system-assigned). -/
structure InventoryEntry where
  item : Nat
  quantity : Int
  storage_location : Nat
  purchase_date : Int
  expiration_date : Int
  notes : Option String
  deriving Repr, DecidableEq

/-- `inventory.models.UsageLog`: a usage record.  `inventory_entry` is a
CASCADE FK to the entries table.  `created_at` is omitted. -/
structure UsageLog where
  inventory_entry : Nat
  quantity_used : Int
  usage_date : Int
  notes : Option String
  deriving Repr, DecidableEq

/-- The relational store: one association list per table, keyed by id,
plus a fresh-id counter shared by all tables. -/
structure Store where
  locations : List (Nat × StorageLocation)
  categories : List (Nat × Category)
  items : List (Nat × Item)
  entries : List (Nat × InventoryEntry)
  usage_logs : List (Nat × UsageLog)
  next_id : Nat
  deriving Repr, DecidableEq

/-- The store with no rows at all. -/
def emptyStore : Store :=
  { locations := [], categories := [], items := [], entries := [],
    usage_logs := [], next_id := 0 }

/-- Typed failures of the exposed operations (spec section 7 taxonomy;
in the source these are `ValidationError`s raised by the form `clean*`
methods, invalid-choice errors from restricted form querysets,
`ProtectedError` from PROTECT FKs, and 404 lookups). -/
inductive FormError where
  | invalidQuantity
  | invalidThreshold
  | invalidDateRange
  | invalidReference
  | ineligibleEntry
  | insufficientQuantity
  | duplicateName
  | referenceInUse
  | notFound
  deriving Repr, DecidableEq

/-! ### Derived, read-side computations (`models.py`) -/

/-- `InventoryEntry.days_until_expiration`: `(expiration_date - date.today()).days`. -/
def days_until_expiration (e : InventoryEntry) (today : Int) : Int :=
  e.expiration_date - today

/-- `InventoryEntry.is_expiring_soon(days=7)`:
`0 <= days_until_expiration <= days`. -/
def is_expiring_soon (e : InventoryEntry) (today : Int) (days : Int) : Bool :=
  0 ≤ days_until_expiration e today ∧ days_until_expiration e today ≤ days

/-- `InventoryEntry.is_expired`: `days_until_expiration < 0`. -/
def is_expired (e : InventoryEntry) (today : Int) : Bool :=
  days_until_expiration e today < 0

/-- The "fresh" band as the `inventory_list` view filters it
(`views.py`, `status == 'fresh'`): `expiration_date > today + days`. -/
def is_fresh (e : InventoryEntry) (today : Int) (days : Int) : Bool :=
  today + days < e.expiration_date

/-- `Item.get_total_quantity`: sum of `quantity` over all entries whose
`item` FK is this item — depleted rows included. -/
def get_total_quantity (s : Store) (itemId : Nat) : Int :=
  ((s.entries.filter (fun p => p.2.item == itemId)).map (fun p => p.2.quantity)).sum

/-- `Item.is_low_stock`: `False` when the threshold is unset, otherwise
`get_total_quantity < low_stock_threshold`. -/
def is_low_stock (s : Store) (itemId : Nat) (it : Item) : Bool :=
  match it.low_stock_threshold with
  | none => false
  | some t => get_total_quantity s itemId < t

/-! ### Read views that band by expiration (`views.py`) -/

/-- The status values the `inventory_list` view recognises. -/
inductive ExpStatus where
  | expiring
  | expired
  | fresh
  deriving Repr, DecidableEq

/-- The expiration-status filter of the `inventory_list` view: for
`status == 'expiring'` keep `today <= expiration_date <= today + 7`, for
`'expired'` keep `expiration_date < today`, for `'fresh'` keep
`expiration_date > today + 7`; with no status requested all entries are
kept.  (The view applies no quantity condition in any branch.) -/
def inventory_list_status_filter (entries : List (Nat × InventoryEntry))
    (today : Int) : Option ExpStatus → List (Nat × InventoryEntry)
  | none => entries
  | some .expiring => entries.filter
      (fun p => today ≤ p.2.expiration_date ∧ p.2.expiration_date ≤ today + 7)
  | some .expired => entries.filter (fun p => p.2.expiration_date < today)
  | some .fresh => entries.filter (fun p => today + 7 < p.2.expiration_date)

/-- The dashboard's "expiring within 7 days" query:
`expiration_date >= today`, `expiration_date <= today + 7` and
`quantity > 0` (ordering and the top-5 truncation are presentation). -/
def dashboard_expiring_soon (s : Store) (today : Int) : List (Nat × InventoryEntry) :=
  s.entries.filter
    (fun p => today ≤ p.2.expiration_date ∧ p.2.expiration_date ≤ today + 7 ∧ 0 < p.2.quantity)

/-- The dashboard's expired-items query: `expiration_date < today` and
`quantity > 0` (the view then takes its count). -/
def dashboard_expired (s : Store) (today : Int) : List (Nat × InventoryEntry) :=
  s.entries.filter (fun p => p.2.expiration_date < today ∧ 0 < p.2.quantity)

/-! ### Write operations (`views.py` guarded by `forms.py` validation)

Each view fetches (404 on a missing id), lets the form validate, and
saves only when the form is valid; an invalid form re-renders and never
touches the store, so a failing operation returns only an error. -/

/-- Replace the row keyed `k` by value `v`, all other rows unchanged;
embeds saving a fetched model instance back into its table. -/
def setRow {β : Type} (rows : List (Nat × β)) (k : Nat) (v : β) : List (Nat × β) :=
  rows.map (fun p => cond (p.1 == k) (k, v) p)

/-- `location_create` view with `StorageLocationForm`: the unique
constraint on `name` rejects a duplicate, otherwise a fresh row is
appended. -/
def location_create (s : Store) (nm : String) (descr : Option String) :
    Except FormError Store :=
  if s.locations.any (fun p => p.2.name == nm) then .error .duplicateName
  else .ok { s with
    locations := s.locations ++ [(s.next_id, ⟨nm, descr⟩)],
    next_id := s.next_id + 1 }

/-- `location_update` view: 404 on a missing id; the unique-name check
ignores the row being edited. -/
def location_update (s : Store) (pk : Nat) (nm : String) (descr : Option String) :
    Except FormError Store :=
  if (s.locations.lookup pk).isNone then .error .notFound
  else if s.locations.any (fun p => p.1 != pk && p.2.name == nm) then .error .duplicateName
  else .ok { s with locations := setRow s.locations pk ⟨nm, descr⟩ }

/-- `location_delete` view: the PROTECT constraints of
`Item.default_storage_location` and `InventoryEntry.storage_location`
make the delete raise while any such row exists; the view catches this
and leaves the store unchanged. -/
def location_delete (s : Store) (pk : Nat) : Except FormError Store :=
  if (s.locations.lookup pk).isNone then .error .notFound
  else if s.items.any (fun p => p.2.default_storage_location == pk) ||
      s.entries.any (fun p => p.2.storage_location == pk) then .error .referenceInUse
  else .ok { s with locations := s.locations.filter (fun p => p.1 != pk) }

/-- `category_create` view with `CategoryForm` (unique name). -/
def category_create (s : Store) (nm : String) (descr : Option String) :
    Except FormError Store :=
  if s.categories.any (fun p => p.2.name == nm) then .error .duplicateName
  else .ok { s with
    categories := s.categories ++ [(s.next_id, ⟨nm, descr⟩)],
    next_id := s.next_id + 1 }

/-- `category_update` view. -/
def category_update (s : Store) (pk : Nat) (nm : String) (descr : Option String) :
    Except FormError Store :=
  if (s.categories.lookup pk).isNone then .error .notFound
  else if s.categories.any (fun p => p.1 != pk && p.2.name == nm) then .error .duplicateName
  else .ok { s with categories := setRow s.categories pk ⟨nm, descr⟩ }

/-- `category_delete` view: the PROTECT constraint of `Item.category`
blocks the delete while any Item references the category. -/
def category_delete (s : Store) (pk : Nat) : Except FormError Store :=
  if (s.categories.lookup pk).isNone then .error .notFound
  else if s.items.any (fun p => p.2.category == pk) then .error .referenceInUse
  else .ok { s with categories := s.categories.filter (fun p => p.1 != pk) }

/-- `item_create` view with `ItemForm`: the FK choice fields only admit
existing Category/StorageLocation rows, and `clean_low_stock_threshold`
rejects a provided threshold `<= 0`. -/
def item_create (s : Store) (f : Item) : Except FormError Store :=
  if (s.categories.lookup f.category).isNone then .error .invalidReference
  else if (s.locations.lookup f.default_storage_location).isNone then .error .invalidReference
  else if (match f.low_stock_threshold with
           | none => false
           | some t => decide (t ≤ 0)) then .error .invalidThreshold
  else .ok { s with items := s.items ++ [(s.next_id, f)], next_id := s.next_id + 1 }

/-- `item_update` view: 404 on a missing id, then the same `ItemForm`
validation as creation. -/
def item_update (s : Store) (pk : Nat) (f : Item) : Except FormError Store :=
  if (s.items.lookup pk).isNone then .error .notFound
  else if (s.categories.lookup f.category).isNone then .error .invalidReference
  else if (s.locations.lookup f.default_storage_location).isNone then .error .invalidReference
  else if (match f.low_stock_threshold with
           | none => false
           | some t => decide (t ≤ 0)) then .error .invalidThreshold
  else .ok { s with items := setRow s.items pk f }

/-- `item_delete` view: `Item.delete()` cascades over the CASCADE FKs —
the item's InventoryEntry rows go, and with each of those all UsageLog
rows referencing it. -/
def item_delete (s : Store) (pk : Nat) : Except FormError Store :=
  if (s.items.lookup pk).isNone then .error .notFound
  else
    let deadEntryIds := (s.entries.filter (fun p => p.2.item == pk)).map Prod.fst
    .ok { s with
      items := s.items.filter (fun p => p.1 != pk),
      entries := s.entries.filter (fun p => p.2.item != pk),
      usage_logs := s.usage_logs.filter
        (fun p => !(deadEntryIds.contains p.2.inventory_entry)) }

/-- `inventory_entry_create` view with `InventoryEntryForm`: the FK
choice fields admit only existing rows, `clean_quantity` rejects
`quantity <= 0`, and `clean` rejects `expiration_date < purchase_date`. -/
def inventory_entry_create (s : Store) (f : InventoryEntry) : Except FormError Store :=
  if (s.items.lookup f.item).isNone then .error .invalidReference
  else if (s.locations.lookup f.storage_location).isNone then .error .invalidReference
  else if f.quantity ≤ 0 then .error .invalidQuantity
  else if f.expiration_date < f.purchase_date then .error .invalidDateRange
  else .ok { s with entries := s.entries ++ [(s.next_id, f)], next_id := s.next_id + 1 }

/-- `inventory_entry_update` view: 404 on a missing id, then the same
`InventoryEntryForm` validation as creation, applied to the submitted
field values. -/
def inventory_entry_update (s : Store) (pk : Nat) (f : InventoryEntry) :
    Except FormError Store :=
  if (s.entries.lookup pk).isNone then .error .notFound
  else if (s.items.lookup f.item).isNone then .error .invalidReference
  else if (s.locations.lookup f.storage_location).isNone then .error .invalidReference
  else if f.quantity ≤ 0 then .error .invalidQuantity
  else if f.expiration_date < f.purchase_date then .error .invalidDateRange
  else .ok { s with entries := setRow s.entries pk f }

/-- `inventory_entry_delete` view: hard delete of the entry; its
UsageLog rows cascade with it. -/
def inventory_entry_delete (s : Store) (pk : Nat) : Except FormError Store :=
  if (s.entries.lookup pk).isNone then .error .notFound
  else .ok { s with
    entries := s.entries.filter (fun p => p.1 != pk),
    usage_logs := s.usage_logs.filter (fun p => p.2.inventory_entry != pk) }

/-- `usage_log_create` view with `UsageLogForm`: the entry choice field
is restricted to entries with `quantity > 0` (a missing id or a depleted
entry is an invalid choice), `clean_quantity_used` rejects
`quantity_used <= 0`, and `clean` rejects
`quantity_used > inventory_entry.quantity`; on success the view saves
the log and then decrements the entry's quantity by `quantity_used`. -/
def usage_log_create (s : Store) (f : UsageLog) : Except FormError Store :=
  match s.entries.lookup f.inventory_entry with
  | none => .error .invalidReference
  | some e =>
    if e.quantity ≤ 0 then .error .ineligibleEntry
    else if f.quantity_used ≤ 0 then .error .invalidQuantity
    else if e.quantity < f.quantity_used then .error .insufficientQuantity
    else .ok { s with
      usage_logs := s.usage_logs ++ [(s.next_id, f)],
      entries := setRow s.entries f.inventory_entry
        { e with quantity := e.quantity - f.quantity_used },
      next_id := s.next_id + 1 }

/-- One exposed write operation succeeding.  The read views mutate
nothing; every store change goes through one of these. -/
inductive Step : Store → Store → Prop
  | location_create_ok {s s' nm d} : location_create s nm d = .ok s' → Step s s'
  | location_update_ok {s s' pk nm d} : location_update s pk nm d = .ok s' → Step s s'
  | location_delete_ok {s s' pk} : location_delete s pk = .ok s' → Step s s'
  | category_create_ok {s s' nm d} : category_create s nm d = .ok s' → Step s s'
  | category_update_ok {s s' pk nm d} : category_update s pk nm d = .ok s' → Step s s'
  | category_delete_ok {s s' pk} : category_delete s pk = .ok s' → Step s s'
  | item_create_ok {s s' f} : item_create s f = .ok s' → Step s s'
  | item_update_ok {s s' pk f} : item_update s pk f = .ok s' → Step s s'
  | item_delete_ok {s s' pk} : item_delete s pk = .ok s' → Step s s'
  | entry_create_ok {s s' f} : inventory_entry_create s f = .ok s' → Step s s'
  | entry_update_ok {s s' pk f} : inventory_entry_update s pk f = .ok s' → Step s s'
  | entry_delete_ok {s s' pk} : inventory_entry_delete s pk = .ok s' → Step s s'
  | usage_create_ok {s s' f} : usage_log_create s f = .ok s' → Step s s'

/-- The stores reachable from the empty store through exposed writes. -/
inductive Reachable : Store → Prop
  | init : Reachable emptyStore
  | step {s s'} : Reachable s → Step s s' → Reachable s'

/-! ### Derived predicates used by the verified properties -/

/-- Whether an operation was rejected (the view re-renders the form and
writes nothing). -/
def failed : Except FormError Store → Bool
  | .ok _ => false
  | .error _ => true

/-- Every persisted entry has non-negative quantity. -/
def QuantityInv (s : Store) : Prop := ∀ p ∈ s.entries, 0 ≤ p.2.quantity

/-- Every persisted entry expires on or after its purchase date. -/
def DateInv (s : Store) : Prop := ∀ p ∈ s.entries, p.2.purchase_date ≤ p.2.expiration_date

/-- The three expiration bands characterised by
`days_until_expiration`, mutually exclusive and exhaustive, with the
boundary case `expiration_date = today` landing in "expiring soon". -/
def BandTrichotomy (e : InventoryEntry) (today N : Int) : Prop :=
  (is_expired e today = true ↔ days_until_expiration e today < 0) ∧
  (is_expiring_soon e today N = true ↔
    0 ≤ days_until_expiration e today ∧ days_until_expiration e today ≤ N) ∧
  (is_fresh e today N = true ↔ N < days_until_expiration e today) ∧
  (is_expired e today = true ∨ is_expiring_soon e today N = true ∨ is_fresh e today N = true) ∧
  ¬(is_expired e today = true ∧ is_expiring_soon e today N = true) ∧
  ¬(is_expired e today = true ∧ is_fresh e today N = true) ∧
  ¬(is_expiring_soon e today N = true ∧ is_fresh e today N = true) ∧
  (e.expiration_date = today →
    is_expiring_soon e today N = true ∧ days_until_expiration e today = 0 ∧
    is_expired e today = false ∧ is_fresh e today N = false)

/-- Both dashboard bands contain only entries with positive quantity. -/
def DashboardExcludesDepleted (s : Store) (today : Int) : Prop :=
  (∀ p ∈ dashboard_expiring_soon s today, 0 < p.2.quantity) ∧
  (∀ p ∈ dashboard_expired s today, 0 < p.2.quantity)

/-- The `inventory_list` status filter keeps an entry exactly when its
expiration date is in the requested band — the quantity plays no role. -/
def ListBandByDateOnly (entries : List (Nat × InventoryEntry)) (today : Int) : Prop :=
  (∀ p, p ∈ inventory_list_status_filter entries today (some .expiring) ↔
    p ∈ entries ∧ today ≤ p.2.expiration_date ∧ p.2.expiration_date ≤ today + 7) ∧
  (∀ p, p ∈ inventory_list_status_filter entries today (some .expired) ↔
    p ∈ entries ∧ p.2.expiration_date < today) ∧
  (∀ p, p ∈ inventory_list_status_filter entries today (some .fresh) ↔
    p ∈ entries ∧ today + 7 < p.2.expiration_date)

/-- What deleting item `iid` leaves behind: no row of the item, its
entries or their usage logs survives, and every row of other items
survives untouched. -/
def CascadeClosure (s s' : Store) (iid : Nat) : Prop :=
  (∀ p ∈ s'.items, p.1 ≠ iid) ∧
  (∀ p ∈ s'.items, p ∈ s.items) ∧
  (∀ p ∈ s.items, p.1 ≠ iid → p ∈ s'.items) ∧
  (∀ p ∈ s'.entries, p.2.item ≠ iid) ∧
  (∀ p ∈ s'.entries, p ∈ s.entries) ∧
  (∀ p ∈ s.entries, p.2.item ≠ iid → p ∈ s'.entries) ∧
  (∀ q ∈ s'.usage_logs, q ∈ s.usage_logs) ∧
  (∀ q ∈ s'.usage_logs, ∀ e, s.entries.lookup q.2.inventory_entry = some e → e.item ≠ iid) ∧
  (∀ q ∈ s.usage_logs, ∀ e, (q.2.inventory_entry, e) ∈ s.entries → e.item ≠ iid →
    q ∈ s'.usage_logs)

/-! ### A concrete reachable store (the spec's Milk scenario) -/

/-- "Fridge" location, id 0. -/
def loc0 : StorageLocation := ⟨"Fridge", none⟩

/-- "Dairy" category, id 1. -/
def cat0 : Category := ⟨"Dairy", none⟩

/-- "Milk" item, id 2: category 1, default location 0, unit gallon,
low-stock threshold 2. -/
def item0 : Item := ⟨"Milk", 1, 0, none, "gallon", some 2⟩

/-- Entry id 3: 3 units of item 2 in location 0, purchased day 0,
expiring day 9. -/
def entry0 : InventoryEntry := ⟨2, 3, 0, 0, 9, none⟩

/-- The store after creating the location, category, item and entry. -/
def sampleStore : Store := ⟨[(0, loc0)], [(1, cat0)], [(2, item0)], [(3, entry0)], [], 4⟩

/-- A usage of all 3 units of entry 3 on day 5. -/
def usage0 : UsageLog := ⟨3, 3, 5, none⟩

/-- Entry 3 after the usage depleted it. -/
def depletedEntry : InventoryEntry := ⟨2, 0, 0, 0, 9, none⟩

/-- The store after logging `usage0` against `sampleStore`. -/
def depletedStore : Store :=
  ⟨[(0, loc0)], [(1, cat0)], [(2, item0)], [(3, depletedEntry)], [(4, usage0)], 5⟩

/-- An entry submission whose expiration date precedes its purchase date. -/
def badEntry : InventoryEntry := ⟨2, 1, 0, 5, 4, none⟩

/-- An entry expiring on day 0. -/
def entryToday : InventoryEntry := ⟨2, 1, 0, 0, 0, none⟩

/-- A resubmission of depleted entry 3 that raises its quantity to 5 and
edits its notes. -/
def revivedEntry : InventoryEntry := ⟨2, 5, 0, 0, 9, some "restocked"⟩

/-- What is left of `depletedStore` after deleting item 2. -/
def postDeleteStore : Store := ⟨[(0, loc0)], [(1, cat0)], [], [], [], 5⟩

/-! ### Association-list lemmas -/

theorem lookup_mem {β : Type} {l : List (Nat × β)} {k : Nat} {v : β}
    (h : l.lookup k = some v) : (k, v) ∈ l := by
  induction l with
  | nil => simp [List.lookup] at h
  | cons a t ih =>
    obtain ⟨k', v'⟩ := a
    by_cases hk : k = k'
    · subst hk
      simp only [List.lookup, beq_self_eq_true] at h
      cases h
      exact List.mem_cons_self _ _
    · have hb : (k == k') = false := beq_eq_false_iff_ne.mpr hk
      simp only [List.lookup, hb] at h
      exact List.mem_cons_of_mem _ (ih h)

theorem mem_setRow {β : Type} {l : List (Nat × β)} {k : Nat} {v : β} {q : Nat × β}
    (h : q ∈ setRow l k v) : q = (k, v) ∨ q ∈ l := by
  unfold setRow at h
  rcases List.mem_map.1 h with ⟨p, hp, he⟩
  cases hc : p.1 == k with
  | true =>
    rw [hc, cond_true] at he
    exact Or.inl he.symm
  | false =>
    rw [hc, cond_false] at he
    exact Or.inr (he ▸ hp)

theorem setRow_cons {β : Type} (k' : Nat) (v' : β) (t : List (Nat × β)) (k : Nat) (v : β) :
    setRow ((k', v') :: t) k v = (cond (k' == k) (k, v) (k', v')) :: setRow t k v := rfl

theorem lookup_setRow_self {β : Type} {l : List (Nat × β)} {k : Nat} {e v : β}
    (h : l.lookup k = some e) : (setRow l k v).lookup k = some v := by
  induction l with
  | nil => simp [List.lookup] at h
  | cons a t ih =>
    obtain ⟨k', v'⟩ := a
    rw [setRow_cons]
    by_cases hk : k = k'
    · subst hk
      simp only [beq_self_eq_true, cond_true]
      simp [List.lookup]
    · have hb : (k == k') = false := beq_eq_false_iff_ne.mpr hk
      have hb' : (k' == k) = false := beq_eq_false_iff_ne.mpr (Ne.symm hk)
      simp only [List.lookup, hb] at h
      simp only [hb', cond_false, List.lookup, hb]
      exact ih h

/-! ### Inversion of the write operations -/

theorem location_create_inv {s s' : Store} {nm : String} {d : Option String}
    (h : location_create s nm d = .ok s') :
    s' = { s with locations := s.locations ++ [(s.next_id, ⟨nm, d⟩)],
                  next_id := s.next_id + 1 } := by
  unfold location_create at h
  split at h
  · cases h
  · cases h; rfl

theorem location_update_inv {s s' : Store} {pk : Nat} {nm : String} {d : Option String}
    (h : location_update s pk nm d = .ok s') :
    s' = { s with locations := setRow s.locations pk ⟨nm, d⟩ } := by
  unfold location_update at h
  split at h
  · cases h
  · split at h
    · cases h
    · cases h; rfl

theorem location_delete_inv {s s' : Store} {pk : Nat}
    (h : location_delete s pk = .ok s') :
    s' = { s with locations := s.locations.filter (fun p => p.1 != pk) } := by
  unfold location_delete at h
  split at h
  · cases h
  · split at h
    · cases h
    · cases h; rfl

theorem category_create_inv {s s' : Store} {nm : String} {d : Option String}
    (h : category_create s nm d = .ok s') :
    s' = { s with categories := s.categories ++ [(s.next_id, ⟨nm, d⟩)],
                  next_id := s.next_id + 1 } := by
  unfold category_create at h
  split at h
  · cases h
  · cases h; rfl

theorem category_update_inv {s s' : Store} {pk : Nat} {nm : String} {d : Option String}
    (h : category_update s pk nm d = .ok s') :
    s' = { s with categories := setRow s.categories pk ⟨nm, d⟩ } := by
  unfold category_update at h
  split at h
  · cases h
  · split at h
    · cases h
    · cases h; rfl

theorem category_delete_inv {s s' : Store} {pk : Nat}
    (h : category_delete s pk = .ok s') :
    s' = { s with categories := s.categories.filter (fun p => p.1 != pk) } := by
  unfold category_delete at h
  split at h
  · cases h
  · split at h
    · cases h
    · cases h; rfl

theorem item_create_inv {s s' : Store} {f : Item}
    (h : item_create s f = .ok s') :
    s' = { s with items := s.items ++ [(s.next_id, f)], next_id := s.next_id + 1 } := by
  unfold item_create at h
  split at h
  · cases h
  · split at h
    · cases h
    · split at h
      · cases h
      · cases h; rfl

theorem item_update_inv {s s' : Store} {pk : Nat} {f : Item}
    (h : item_update s pk f = .ok s') :
    s' = { s with items := setRow s.items pk f } := by
  unfold item_update at h
  split at h
  · cases h
  · split at h
    · cases h
    · split at h
      · cases h
      · split at h
        · cases h
        · cases h; rfl

theorem item_delete_inv {s s' : Store} {pk : Nat}
    (h : item_delete s pk = .ok s') :
    s' = { s with
      items := s.items.filter (fun p => p.1 != pk),
      entries := s.entries.filter (fun p => p.2.item != pk),
      usage_logs := s.usage_logs.filter
        (fun p => !(((s.entries.filter (fun q => q.2.item == pk)).map Prod.fst).contains
          p.2.inventory_entry)) } := by
  unfold item_delete at h
  split at h
  · cases h
  · cases h; rfl

theorem inventory_entry_create_inv {s s' : Store} {f : InventoryEntry}
    (h : inventory_entry_create s f = .ok s') :
    0 < f.quantity ∧ f.purchase_date ≤ f.expiration_date ∧
    s' = { s with entries := s.entries ++ [(s.next_id, f)], next_id := s.next_id + 1 } := by
  unfold inventory_entry_create at h
  split at h
  · cases h
  · split at h
    · cases h
    · split at h
      · cases h
      · split at h
        · cases h
        · exact ⟨by omega, by omega, by cases h; rfl⟩

theorem inventory_entry_update_inv {s s' : Store} {pk : Nat} {f : InventoryEntry}
    (h : inventory_entry_update s pk f = .ok s') :
    0 < f.quantity ∧ f.purchase_date ≤ f.expiration_date ∧
    s' = { s with entries := setRow s.entries pk f } := by
  unfold inventory_entry_update at h
  split at h
  · cases h
  · split at h
    · cases h
    · split at h
      · cases h
      · split at h
        · cases h
        · split at h
          · cases h
          · exact ⟨by omega, by omega, by cases h; rfl⟩

theorem inventory_entry_delete_inv {s s' : Store} {pk : Nat}
    (h : inventory_entry_delete s pk = .ok s') :
    s' = { s with
      entries := s.entries.filter (fun p => p.1 != pk),
      usage_logs := s.usage_logs.filter (fun p => p.2.inventory_entry != pk) } := by
  unfold inventory_entry_delete at h
  split at h
  · cases h
  · cases h; rfl

theorem usage_log_create_inv {s s' : Store} {f : UsageLog}
    (h : usage_log_create s f = .ok s') :
    ∃ e, s.entries.lookup f.inventory_entry = some e ∧
      0 < e.quantity ∧ 0 < f.quantity_used ∧ f.quantity_used ≤ e.quantity ∧
      s' = { s with
        usage_logs := s.usage_logs ++ [(s.next_id, f)],
        entries := setRow s.entries f.inventory_entry
          { e with quantity := e.quantity - f.quantity_used },
        next_id := s.next_id + 1 } := by
  unfold usage_log_create at h
  split at h
  · cases h
  · rename_i e heq
    split at h
    · cases h
    · split at h
      · cases h
      · split at h
        · cases h
        · exact ⟨e, heq, by omega, by omega, by omega, by cases h; rfl⟩

/-! ### Invariants over reachable stores -/

/-- Any predicate on entries that holds of every form-validated entry and
is preserved by a valid usage decrement holds of all entries after any
exposed write, if it held before. -/
theorem step_preserves_entry_pred {P : InventoryEntry → Prop} {s s' : Store}
    (hnew : ∀ f : InventoryEntry, 0 < f.quantity → f.purchase_date ≤ f.expiration_date → P f)
    (husage : ∀ (e : InventoryEntry) (u : Int), P e → 0 < u → u ≤ e.quantity →
      P { e with quantity := e.quantity - u })
    (hstep : Step s s') (hP : ∀ p ∈ s.entries, P p.2) :
    ∀ p ∈ s'.entries, P p.2 := by
  cases hstep with
  | location_create_ok h => rw [location_create_inv h]; exact hP
  | location_update_ok h => rw [location_update_inv h]; exact hP
  | location_delete_ok h => rw [location_delete_inv h]; exact hP
  | category_create_ok h => rw [category_create_inv h]; exact hP
  | category_update_ok h => rw [category_update_inv h]; exact hP
  | category_delete_ok h => rw [category_delete_inv h]; exact hP
  | item_create_ok h => rw [item_create_inv h]; exact hP
  | item_update_ok h => rw [item_update_inv h]; exact hP
  | item_delete_ok h =>
    rw [item_delete_inv h]
    intro p hp
    exact hP p (List.mem_filter.1 hp).1
  | entry_create_ok h =>
    obtain ⟨hq, hd, he⟩ := inventory_entry_create_inv h
    rw [he]
    intro p hp
    rcases List.mem_append.1 hp with hp | hp
    · exact hP p hp
    · rcases List.mem_singleton.1 hp with rfl
      exact hnew _ hq hd
  | entry_update_ok h =>
    obtain ⟨hq, hd, he⟩ := inventory_entry_update_inv h
    rw [he]
    intro p hp
    rcases mem_setRow hp with rfl | hp
    · exact hnew _ hq hd
    · exact hP p hp
  | entry_delete_ok h =>
    rw [inventory_entry_delete_inv h]
    intro p hp
    exact hP p (List.mem_filter.1 hp).1
  | usage_create_ok h =>
    obtain ⟨e, heq, hpos, hu, hle, he⟩ := usage_log_create_inv h
    rw [he]
    intro p hp
    rcases mem_setRow hp with rfl | hp
    · exact husage e _ (hP _ (lookup_mem heq)) hu hle
    · exact hP p hp

theorem reachable_entry_pred {P : InventoryEntry → Prop}
    (hnew : ∀ f : InventoryEntry, 0 < f.quantity → f.purchase_date ≤ f.expiration_date → P f)
    (husage : ∀ (e : InventoryEntry) (u : Int), P e → 0 < u → u ≤ e.quantity →
      P { e with quantity := e.quantity - u })
    {s : Store} (hreach : Reachable s) :
    ∀ p ∈ s.entries, P p.2 := by
  induction hreach with
  | init => intro p hp; simp [emptyStore] at hp
  | step _ hs ih => exact step_preserves_entry_pred hnew husage hs ih

theorem sampleStore_reachable : Reachable sampleStore := by
  have h1 : location_create emptyStore "Fridge" none =
      Except.ok (⟨[(0, loc0)], [], [], [], [], 1⟩ : Store) := rfl
  have h2 : category_create (⟨[(0, loc0)], [], [], [], [], 1⟩ : Store) "Dairy" none =
      Except.ok (⟨[(0, loc0)], [(1, cat0)], [], [], [], 2⟩ : Store) := rfl
  have h3 : item_create (⟨[(0, loc0)], [(1, cat0)], [], [], [], 2⟩ : Store) item0 =
      Except.ok (⟨[(0, loc0)], [(1, cat0)], [(2, item0)], [], [], 3⟩ : Store) := rfl
  have h4 : inventory_entry_create
      (⟨[(0, loc0)], [(1, cat0)], [(2, item0)], [], [], 3⟩ : Store) entry0 =
      Except.ok sampleStore := rfl
  exact Reachable.step (Reachable.step (Reachable.step (Reachable.step Reachable.init
    (Step.location_create_ok h1)) (Step.category_create_ok h2))
    (Step.item_create_ok h3)) (Step.entry_create_ok h4)

theorem depletedStore_reachable : Reachable depletedStore := by
  have h5 : usage_log_create sampleStore usage0 = Except.ok depletedStore := rfl
  exact Reachable.step sampleStore_reachable (Step.usage_create_ok h5)

/-- With duplicate-free keys, a key determines its row value. -/
theorem nodup_keys_eq {β : Type} {l : List (Nat × β)} (h : (l.map Prod.fst).Nodup)
    {k : Nat} {a b : β} (ha : (k, a) ∈ l) (hb : (k, b) ∈ l) : a = b := by
  induction l with
  | nil => simp at ha
  | cons p t ih =>
    rw [List.map_cons, List.nodup_cons] at h
    rcases List.mem_cons.1 ha with ha | ha <;> rcases List.mem_cons.1 hb with hb | hb
    · rw [← ha] at hb; exact (Prod.ext_iff.1 hb).2.symm
    · exact absurd (List.mem_map.2 ⟨(k, b), hb, by rw [← ha]⟩) h.1
    · exact absurd (List.mem_map.2 ⟨(k, a), ha, by rw [← hb]⟩) h.1
    · exact ih h.2 ha hb

/-! ### The verified claims -/

/-- **C1.**  For every successful `log_usage(entry, quantity_used)` with
`0 < quantity_used <= entry.quantity`, a UsageLog row recording
`quantity_used` is persisted (appended to the usage-log table) and the
entry's quantity afterward equals its quantity before the call minus
`quantity_used`, exactly. -/
theorem claim_C1_usage_decrements_exactly (s : Store) (f : UsageLog) (e : InventoryEntry)
    (hlook : s.entries.lookup f.inventory_entry = some e)
    (hpos : 0 < f.quantity_used) (hle : f.quantity_used ≤ e.quantity) :
    usage_log_create s f = .ok { s with
        usage_logs := s.usage_logs ++ [(s.next_id, f)],
        entries := setRow s.entries f.inventory_entry
          { e with quantity := e.quantity - f.quantity_used },
        next_id := s.next_id + 1 } ∧
    (setRow s.entries f.inventory_entry
        { e with quantity := e.quantity - f.quantity_used }).lookup f.inventory_entry =
      some { e with quantity := e.quantity - f.quantity_used } := by
  constructor
  · simp only [usage_log_create, hlook]
    rw [if_neg (show ¬(e.quantity ≤ 0) by omega),
        if_neg (show ¬(f.quantity_used ≤ 0) by omega),
        if_neg (show ¬(e.quantity < f.quantity_used) by omega)]
  · exact lookup_setRow_self hlook

theorem claim_C1_witness :
    usage_log_create sampleStore usage0 = .ok { sampleStore with
        usage_logs := sampleStore.usage_logs ++ [(sampleStore.next_id, usage0)],
        entries := setRow sampleStore.entries usage0.inventory_entry
          { entry0 with quantity := entry0.quantity - usage0.quantity_used },
        next_id := sampleStore.next_id + 1 } ∧
    (setRow sampleStore.entries usage0.inventory_entry
        { entry0 with quantity := entry0.quantity - usage0.quantity_used }).lookup
        usage0.inventory_entry =
      some { entry0 with quantity := entry0.quantity - usage0.quantity_used } :=
  claim_C1_usage_decrements_exactly sampleStore usage0 entry0 rfl (by decide) (by decide)

/-- **C2** (amended).  For every entry `e` with positive quantity and
every `quantity_used` strictly greater than `e.quantity`, the usage
transaction fails with the insufficient-quantity error; the failed
operation returns only the error, so the entry and the usage-log table
are unchanged.  (For a depleted entry — quantity 0 — the call also
fails and changes nothing, but with the invalid-choice error of the
restricted entry queryset, not the insufficient-quantity one; see the
counterexample.) -/
theorem claim_C2_insufficient_rejected (s : Store) (f : UsageLog) (e : InventoryEntry)
    (hlook : s.entries.lookup f.inventory_entry = some e)
    (hq : 0 < e.quantity) (hgt : e.quantity < f.quantity_used) :
    usage_log_create s f = .error .insufficientQuantity := by
  simp only [usage_log_create, hlook]
  rw [if_neg (show ¬(e.quantity ≤ 0) by omega),
      if_neg (show ¬(f.quantity_used ≤ 0) by omega),
      if_pos hgt]

theorem claim_C2_witness :
    usage_log_create sampleStore ⟨3, 5, 10, none⟩ = .error .insufficientQuantity :=
  claim_C2_insufficient_rejected sampleStore ⟨3, 5, 10, none⟩ entry0 rfl
    (by decide) (by decide)

/-- **C2** fails as stated on a depleted entry: entry 3 of
`depletedStore` has quantity 0, the requested `quantity_used = 5`
exceeds it, yet the operation fails with the ineligible-entry error
(the `UsageLogForm` queryset excludes entries with quantity 0), not
with the insufficient-quantity one. -/
theorem claim_C2_counterexample :
    depletedStore.entries.lookup 3 = some depletedEntry ∧
    depletedEntry.quantity < (5 : Int) ∧
    usage_log_create depletedStore ⟨3, 5, 10, none⟩ = .error .ineligibleEntry ∧
    FormError.ineligibleEntry ≠ FormError.insufficientQuantity :=
  ⟨rfl, by decide, rfl, by decide⟩

/-- **C3.**  At every reachable state of the store, every inventory
entry's quantity is non-negative: creation and update validation admit
only positive quantities, and the usage transaction admits only
`quantity_used <= quantity`, so no exposed operation drives a quantity
below zero. -/
theorem claim_C3_quantity_invariant (s : Store) (h : Reachable s) : QuantityInv s :=
  reachable_entry_pred (fun _ hq _ => le_of_lt hq)
    (fun e u _ hu hle => show (0:Int) ≤ e.quantity - u by omega) h

theorem claim_C3_witness : QuantityInv depletedStore :=
  claim_C3_quantity_invariant depletedStore depletedStore_reachable

/-- **C4.**  For every entry and every query date, with
`d = days_until_expiration` and window `N >= 0` (default 7): expired iff
`d < 0`, expiring soon iff `0 <= d <= N`, fresh iff `d > N`; the bands
are mutually exclusive and exhaustive, and an entry expiring today is
expiring soon with `d = 0`, neither expired nor fresh. -/
theorem claim_C4_band_trichotomy (e : InventoryEntry) (today N : Int) (hN : 0 ≤ N) :
    BandTrichotomy e today N := by
  unfold BandTrichotomy is_expired is_expiring_soon is_fresh days_until_expiration
  refine ⟨?_, ?_, ?_, ?_, ?_, ?_, ?_, ?_⟩ <;> simp <;> omega

theorem claim_C4_witness : BandTrichotomy entryToday 0 7 :=
  claim_C4_band_trichotomy entryToday 0 7 (by decide)

/-- **C5** (amended).  The dashboard's two expiration bands (expiring
soon, expired) keep only entries with quantity > 0, but the
`inventory_list` view's three status filters (expiring, expired, fresh)
select on the expiration date alone: a depleted entry (quantity 0) in
the date band is not excluded there. -/
theorem claim_C5_read_view_bands (s : Store) (entries : List (Nat × InventoryEntry))
    (today : Int) :
    DashboardExcludesDepleted s today ∧ ListBandByDateOnly entries today := by
  refine ⟨⟨?_, ?_⟩, ?_, ?_, ?_⟩
  · intro p hp
    simp only [dashboard_expiring_soon, List.mem_filter, decide_eq_true_eq] at hp
    exact hp.2.2.2
  · intro p hp
    simp only [dashboard_expired, List.mem_filter, decide_eq_true_eq] at hp
    exact hp.2.2
  · intro p
    simp [inventory_list_status_filter, List.mem_filter, and_assoc]
  · intro p
    simp [inventory_list_status_filter, List.mem_filter]
  · intro p
    simp [inventory_list_status_filter, List.mem_filter]

theorem claim_C5_witness :
    DashboardExcludesDepleted depletedStore 9 ∧
    ListBandByDateOnly depletedStore.entries 9 :=
  claim_C5_read_view_bands depletedStore depletedStore.entries 9

/-- **C5** fails as stated: in the `inventory_list` read view, the
depleted entry 3 (quantity 0, expiring day 9) is returned by the
"expiring" status filter on day 9, so a quantity-0 entry does appear in
an expiration band of a read view. -/
theorem claim_C5_counterexample :
    depletedEntry.quantity = 0 ∧
    (3, depletedEntry) ∈ inventory_list_status_filter depletedStore.entries 9
      (some .expiring) := by
  constructor
  · rfl
  · decide

/-- **C6.**  `is_low_stock` is false when the threshold is unset;
otherwise it holds exactly when the total quantity over all of the
item's entries — zero-quantity rows included, which the last conjunct
shows contribute nothing — is strictly below the threshold; a total
equal to the threshold is not low stock. -/
theorem claim_C6_low_stock (s : Store) (itemId : Nat) (it : Item) :
    (it.low_stock_threshold = none → is_low_stock s itemId it = false) ∧
    (∀ t : Int, it.low_stock_threshold = some t →
      (is_low_stock s itemId it = true ↔ get_total_quantity s itemId < t)) ∧
    (∀ t : Int, it.low_stock_threshold = some t → get_total_quantity s itemId = t →
      is_low_stock s itemId it = false) ∧
    get_total_quantity s itemId =
      ((s.entries.filter (fun p => p.2.item == itemId && p.2.quantity != 0)).map
        (fun p => p.2.quantity)).sum := by
  have key : ∀ l : List (Nat × InventoryEntry),
      ((l.filter (fun p => p.2.item == itemId)).map (fun p => p.2.quantity)).sum =
      ((l.filter (fun p => p.2.item == itemId && p.2.quantity != 0)).map
        (fun p => p.2.quantity)).sum := by
    intro l
    induction l with
    | nil => rfl
    | cons a t ih =>
      by_cases hi : (a.2.item == itemId) = true
      · by_cases hz : (a.2.quantity != 0) = true
        · simp [List.filter_cons, hi, hz, ih]
        · have h0 : a.2.quantity = 0 := by simpa using hz
          simp [List.filter_cons, hi, hz, ih, h0]
      · simp [List.filter_cons, hi, ih]
  refine ⟨?_, ?_, ?_, key s.entries⟩
  · intro h
    simp [is_low_stock, h]
  · intro t ht
    simp [is_low_stock, ht]
  · intro t ht htot
    simp [is_low_stock, ht, htot]

theorem claim_C6_witness : is_low_stock sampleStore 2 item0 = false := by
  have h := (claim_C6_low_stock sampleStore 2 item0).2.1 2 rfl
  cases hb : is_low_stock sampleStore 2 item0
  · rfl
  · exact absurd (h.1 hb) (by decide)

/-- **C7.**  A write submitting `expiration_date < purchase_date` fails
(create and update both), persisting and modifying nothing, and every
entry of every reachable store satisfies
`purchase_date <= expiration_date`. -/
theorem claim_C7_date_invariant (s t : Store) (f : InventoryEntry) (pk : Nat)
    (hbad : f.expiration_date < f.purchase_date) (hreach : Reachable t) :
    failed (inventory_entry_create s f) = true ∧
    failed (inventory_entry_update s pk f) = true ∧
    DateInv t := by
  refine ⟨?_, ?_, reachable_entry_pred (fun _ _ hd => hd) (fun e u he _ _ => he) hreach⟩
  · unfold inventory_entry_create
    split
    · rfl
    split
    · rfl
    split
    · rfl
    rfl
  · unfold inventory_entry_update
    split
    · rfl
    split
    · rfl
    split
    · rfl
    split
    · rfl
    rfl

theorem claim_C7_witness :
    failed (inventory_entry_create sampleStore badEntry) = true ∧
    failed (inventory_entry_update sampleStore 3 badEntry) = true ∧
    DateInv sampleStore :=
  claim_C7_date_invariant sampleStore sampleStore badEntry 3 (by decide)
    sampleStore_reachable

/-- **C8.**  Deleting a Category referenced by some Item, or a
StorageLocation referenced by some Item or InventoryEntry, fails with
the reference-in-use error; the failed operation returns only the
error, so the store is unchanged. -/
theorem claim_C8_protected_deletes (s : Store) (cid lid : Nat)
    (hcat : (s.categories.lookup cid).isNone = false)
    (hc : s.items.any (fun p => p.2.category == cid) = true)
    (hloc : (s.locations.lookup lid).isNone = false)
    (hl : (s.items.any (fun p => p.2.default_storage_location == lid) ||
      s.entries.any (fun p => p.2.storage_location == lid)) = true) :
    category_delete s cid = .error .referenceInUse ∧
    location_delete s lid = .error .referenceInUse := by
  constructor
  · simp [category_delete, hcat, hc]
  · simp [location_delete, hloc, hl]

theorem claim_C8_witness :
    category_delete sampleStore 1 = .error .referenceInUse ∧
    location_delete sampleStore 0 = .error .referenceInUse :=
  claim_C8_protected_deletes sampleStore 1 0 rfl rfl rfl rfl

/-- **C9.**  Deleting an Item removes the item, every entry referencing
it and every usage log of those entries, and touches no row of any
other item (stated for stores with duplicate-free entry ids, which the
fresh-id discipline guarantees). -/
theorem claim_C9_item_cascade (s s' : Store) (iid : Nat)
    (hnodup : (s.entries.map Prod.fst).Nodup)
    (hok : item_delete s iid = .ok s') : CascadeClosure s s' iid := by
  have hs' := item_delete_inv hok
  subst hs'
  refine ⟨?_, ?_, ?_, ?_, ?_, ?_, ?_, ?_, ?_⟩
  · intro p hp
    have := (List.mem_filter.1 hp).2
    simpa using this
  · intro p hp
    exact (List.mem_filter.1 hp).1
  · intro p hp hne
    exact List.mem_filter.2 ⟨hp, by simpa using hne⟩
  · intro p hp
    have := (List.mem_filter.1 hp).2
    simpa using this
  · intro p hp
    exact (List.mem_filter.1 hp).1
  · intro p hp hne
    exact List.mem_filter.2 ⟨hp, by simpa using hne⟩
  · intro q hq
    exact (List.mem_filter.1 hq).1
  · intro q hq e hlk heq
    have hq2 := (List.mem_filter.1 hq).2
    have hkey : q.2.inventory_entry ∈
        (s.entries.filter (fun p => p.2.item == iid)).map Prod.fst :=
      List.mem_map.2 ⟨(q.2.inventory_entry, e),
        List.mem_filter.2 ⟨lookup_mem hlk, by simp [heq]⟩, rfl⟩
    simp [hkey] at hq2
  · intro q hq e hmem hne
    refine List.mem_filter.2 ⟨hq, ?_⟩
    simp only [Bool.not_eq_true']
    by_contra hcon
    rw [Bool.not_eq_false] at hcon
    have hmemdead : q.2.inventory_entry ∈
        (s.entries.filter (fun p => p.2.item == iid)).map Prod.fst := by
      simpa using hcon
    rcases List.mem_map.1 hmemdead with ⟨p, hpf, hpk⟩
    have hpmem := (List.mem_filter.1 hpf).1
    have hpitem : p.2.item = iid := by
      have := (List.mem_filter.1 hpf).2
      simpa using this
    have hp2 : (q.2.inventory_entry, p.2) ∈ s.entries := by
      rw [← hpk]
      exact hpmem
    have : p.2 = e := nodup_keys_eq hnodup hp2 hmem
    exact hne (this ▸ hpitem)

theorem claim_C9_witness : CascadeClosure depletedStore postDeleteStore 2 :=
  claim_C9_item_cascade depletedStore postDeleteStore 2 (by decide) rfl

/-- **C10** (amended).  Every entry-edit submission whose quantity field
is not positive fails — in particular resubmitting a depleted entry's
current quantity 0 fails — so a depleted entry's notes or dates can be
changed only by simultaneously raising its quantity above 0. -/
theorem claim_C10_depleted_update (s : Store) (pk : Nat) (f : InventoryEntry)
    (hq : f.quantity ≤ 0) : failed (inventory_entry_update s pk f) = true := by
  unfold inventory_entry_update
  split
  · rfl
  split
  · rfl
  split
  · rfl
  rfl

theorem claim_C10_witness : failed (inventory_entry_update depletedStore 3 depletedEntry) = true :=
  claim_C10_depleted_update depletedStore 3 depletedEntry (by decide)

/-- **C10** fails as stated: the depleted entry 3 (quantity 0) *can* be
modified through the public update operation — submitting quantity 5
with new notes is accepted and persists the edit — so it is not true
that every update of a depleted entry fails. -/
theorem claim_C10_counterexample :
    depletedEntry.quantity = 0 ∧
    revivedEntry.notes ≠ depletedEntry.notes ∧
    inventory_entry_update depletedStore 3 revivedEntry =
      .ok ⟨[(0, loc0)], [(1, cat0)], [(2, item0)], [(3, revivedEntry)], [(4, usage0)], 5⟩ :=
  ⟨rfl, by decide, rfl⟩

end Inventory
